import Mathlib

/- Shallow embedding of the signal engine of alert_script.py: EMA trend
estimation (with SMA and last-close fallbacks), percentage deviations from
the trends, annualized log-return volatility, zone scoring, and the buy
decision, together with the surrounding error handling. Closing prices are
modelled as exact rationals; values that the script treats as possibly
degenerate floats (NaN, infinities) are modelled by explicit sum types. -/

set_option maxHeartbeats 1000000

namespace EtfAlert

/-- Python float inputs as seen by safe_float_conversion and
calculate_percentage_diff: either a finite value, carried exactly as a
rational, or a degenerate NaN or infinity. -/
inductive QFloat where
  | val (q : ℚ)
  | nan
  | inf
  | ninf
deriving DecidableEq

/-- Volatility values: a finite real number, or the NaN that the pandas
standard deviation (ddof = 1) yields when only one log return exists. -/
inductive RFloat where
  | val (x : ℝ)
  | nan

/-- The Python comparison v <= t on a possibly-NaN left operand: any
comparison with NaN is false. -/
def RFloat.le (v : RFloat) (t : ℝ) : Prop :=
  match v with
  | .val x => x ≤ t
  | .nan => False

/-- EMA horizons tracked by the script (EMA_DAYS in the config section). -/
def EMA_DAYS : List ℕ := [20, 50, 100, 200]

/-- One month of trading days (VOLATILITY_PERIOD in the config section). -/
def VOLATILITY_PERIOD : ℕ := 21

/-- Buy-signal volatility threshold in percent (VOLATILITY_THRESHOLD). -/
def VOLATILITY_THRESHOLD : ℚ := 5 / 2

/-- safe_float_conversion: NaN and infinities collapse to 0.0, finite
values pass through. -/
def safe_float_conversion : QFloat → ℚ
  | .val q => q
  | .nan => 0
  | .inf => 0
  | .ninf => 0

/-- calculate_percentage_diff: percentage deviation of current from ma,
defined as 0.0 when ma is zero, NaN or infinite. The function is total, so
it never raises. -/
def calculate_percentage_diff (current : ℚ) (ma : QFloat) : ℚ :=
  match ma with
  | .val q => if q = 0 then 0 else ((current - q) / q) * 100
  | _ => 0

/-- calculate_zone_score: the nested conditionals of the script, on the
deviation list indexed in the order [20, 50, 100, 200]. Index accesses use
getD with default 0; the script only ever calls this with a four-element
list, where getD coincides with plain indexing. -/
def calculate_zone_score (ema_diffs : List ℚ) : ℤ × String :=
  if ema_diffs.getD 3 0 < 0 then
    if ema_diffs.getD 2 0 < 0 then
      if ema_diffs.getD 1 0 < 0 then
        if ema_diffs.getD 0 0 < 0 then (60, "➖ Good Price (Below 20 EMA)")
        else (75, "👍 Great Price (Below 50 EMA)")
      else (90, "⭐ Excellent Price (Below 100 EMA)")
    else (100, "🐐 Goated Price (Below 200 EMA)")
  else
    if ema_diffs.getD 0 0 > 0 then
      if ema_diffs.getD 1 0 > 0 then
        if ema_diffs.getD 2 0 > 0 then (0, "⛔ Very Expensive (Above all EMAs)")
        else (10, "⛔ Expensive (Above 50 EMA)")
      else (20, "⚠️ High Zone (Above 20 EMA)")
    else (30, "⚠️ Caution Zone (Near 20 EMA)")

/-- Smoothing factor of ewm(span = s): alpha = 2 / (s + 1). -/
def ewmAlpha (span : ℕ) : ℚ := 2 / ((span : ℚ) + 1)

/-- Close.ewm(span, adjust = False).mean().iloc[-1]: the recursive EMA
seeded by the first close and folded forward through the series. -/
def ewmLast (span : ℕ) : List ℚ → ℚ
  | [] => 0
  | c :: cs => cs.foldl (fun acc x => (1 - ewmAlpha span) * acc + ewmAlpha span * x) c

/-- Close.iloc[-n:].mean(): the simple average of the last n closes (of the
whole series when fewer than n are available). -/
def smaLast (n : ℕ) (closes : List ℚ) : ℚ :=
  let w := closes.drop (closes.length - n)
  w.sum / (w.length : ℚ)

/-- The per-horizon trend value of calculate_signal: the recursive EMA when
at least h observations exist, otherwise the SMA of the available closes
when at least 5 points exist, otherwise the last close itself. -/
def emaValue (closes : List ℚ) (h : ℕ) : ℚ :=
  if h ≤ closes.length then ewmLast h closes
  else if 5 ≤ closes.length then smaLast h closes
  else closes.getLastD 0

/-- Log returns of consecutive closes: np.log(c / c.shift(1)), dropping the
leading NaN that pandas std skips anyway. -/
noncomputable def logReturns (w : List ℚ) : List ℝ :=
  (w.zip w.tail).map (fun p => Real.log ((p.2 : ℝ) / (p.1 : ℝ)))

/-- Arithmetic mean of a list of reals. -/
noncomputable def listMean (xs : List ℝ) : ℝ := xs.sum / (xs.length : ℝ)

/-- Sample variance with ddof = 1, as used by pandas std. -/
noncomputable def sampleVar (xs : List ℝ) : ℝ :=
  (xs.map (fun x => (x - listMean xs) ^ 2)).sum / ((xs.length : ℝ) - 1)

/-- df.tail(VOLATILITY_PERIOD * 3): the trailing 63-observation window. -/
def volWindow (closes : List ℚ) : List ℚ :=
  closes.drop (closes.length - VOLATILITY_PERIOD * 3)

/-- calculate_volatility: 0.0 for series of length below 2 (both length
guards of the script), otherwise the pandas standard deviation of the log
returns over the trailing 63-observation window, annualized by sqrt(252)
and expressed in percent. With only one log return in the window, the
ddof = 1 standard deviation is NaN, which the script propagates. -/
noncomputable def calculate_volatility (closes : List ℚ) : RFloat :=
  if closes.length < 2 then RFloat.val 0
  else if (volWindow closes).length < 2 then RFloat.val 0
  else if (logReturns (volWindow closes)).length < 2 then RFloat.nan
  else RFloat.val (Real.sqrt (sampleVar (logReturns (volWindow closes))) * Real.sqrt 252 * 100)

/-- Python min over a nonempty list (0 on the empty list, which the script
never passes). -/
def pymin : List ℚ → ℚ
  | [] => 0
  | x :: xs => xs.foldl min x

/-- The result dictionary of calculate_signal: either the full record, or
the bare error record produced by the except branch, which carries no
score, no trend values and no other field. -/
inductive SignalResult where
  | ok (buySig : Prop) (lastClose : ℚ) (emaValues : List ℚ) (emaDiffs : List ℚ)
      (volatility : RFloat) (zoneScore : ℤ) (zoneClass : String)
  | err (msg : String)

/-- The buy_signal field (False on an error record). -/
def SignalResult.buyOf : SignalResult → Prop
  | .ok b _ _ _ _ _ _ => b
  | .err _ => False

/-- The last_close field (0 on an error record). -/
def SignalResult.lastCloseOf : SignalResult → ℚ
  | .ok _ c _ _ _ _ _ => c
  | .err _ => 0

/-- The ema_values field ([] on an error record). -/
def SignalResult.emaValuesOf : SignalResult → List ℚ
  | .ok _ _ e _ _ _ _ => e
  | .err _ => []

/-- The ema_diffs field ([] on an error record). -/
def SignalResult.emaDiffsOf : SignalResult → List ℚ
  | .ok _ _ _ d _ _ _ => d
  | .err _ => []

/-- The volatility field (0 on an error record). -/
def SignalResult.volOf : SignalResult → RFloat
  | .ok _ _ _ _ v _ _ => v
  | .err _ => RFloat.val 0

/-- The zone_score field (0 on an error record). -/
def SignalResult.zoneScoreOf : SignalResult → ℤ
  | .ok _ _ _ _ _ z _ => z
  | .err _ => 0

/-- The zone_class field (empty on an error record). -/
def SignalResult.zoneClassOf : SignalResult → String
  | .ok _ _ _ _ _ _ s => s
  | .err _ => ""

/-- The body of calculate_signal downstream of the numeric library calls:
it receives the raw per-horizon EMA outputs and the raw last close (each of
which the script guards with safe_float_conversion, so a degenerate library
output can be analyzed here), plus the volatility, and assembles the
deviations, the zone classification and the buy decision exactly as the
script does. -/
def signal_core (raw_emas : List QFloat) (raw_last : QFloat) (vol : RFloat) : SignalResult :=
  let ema_values := raw_emas.map safe_float_conversion
  let last_close := safe_float_conversion raw_last
  let ema_diffs := ema_values.map (fun e => calculate_percentage_diff last_close (QFloat.val e))
  let z := calculate_zone_score ema_diffs
  SignalResult.ok
    (z.1 ≥ 75 ∧ RFloat.le vol (VOLATILITY_THRESHOLD : ℝ) ∧ last_close < pymin ema_values)
    last_close ema_values ema_diffs vol z.1 z.2

/-- calculate_signal: the empty data frame raises, which the except branch
turns into the bare error record; otherwise the trend values for every
horizon of EMA_DAYS and the last close feed signal_core together with the
computed volatility. -/
noncomputable def calculate_signal (closes : List ℚ) : SignalResult :=
  if closes = [] then SignalResult.err ("Empty DataFrame received")
  else
    signal_core (EMA_DAYS.map (fun h => QFloat.val (emaValue closes h)))
      (QFloat.val (closes.getLastD 0)) (calculate_volatility closes)

end EtfAlert

namespace EtfAlert

/-- A strict lower bound on a foldl of min is a strict lower bound on the
seed and on every element. -/
lemma foldl_min_lt_iff (a : ℚ) : ∀ (xs : List ℚ) (x : ℚ),
    a < xs.foldl min x ↔ a < x ∧ ∀ y ∈ xs, a < y := by
  intro xs
  induction xs with
  | nil => intro x; simp
  | cons z zs ih =>
    intro x
    rw [List.foldl_cons, ih (min x z)]
    constructor
    · rintro ⟨hmin, hall⟩
      rcases lt_min_iff.mp hmin with ⟨hx, hz⟩
      refine ⟨hx, fun y hy => ?_⟩
      rcases List.mem_cons.mp hy with rfl | hy2
      · exact hz
      · exact hall y hy2
    · rintro ⟨hx, hall⟩
      exact ⟨lt_min_iff.mpr ⟨hx, hall z (List.mem_cons_self z zs)⟩,
        fun y hy => hall y (List.mem_cons_of_mem _ hy)⟩

/-- Being strictly below the Python min of a nonempty list is being
strictly below every element. -/
lemma lt_pymin_iff (a : ℚ) (l : List ℚ) (hl : l ≠ []) :
    a < pymin l ↔ ∀ x ∈ l, a < x := by
  cases l with
  | nil => exact absurd rfl hl
  | cons x xs =>
    rw [pymin, foldl_min_lt_iff]
    exact (List.forall_mem_cons).symm

/-- A window of n closes yields n - 1 log returns. -/
lemma length_logReturns (w : List ℚ) : (logReturns w).length = w.length - 1 := by
  simp [logReturns]

/-- Length of the trailing 63-observation window. -/
lemma length_volWindow (closes : List ℚ) :
    (volWindow closes).length = closes.length - (closes.length - 63) := by
  simp [volWindow, VOLATILITY_PERIOD]

/-- A list of nonnegative reals with one positive member has positive sum. -/
lemma list_sum_pos_mem (l : List ℝ) (hnn : ∀ x ∈ l, 0 ≤ x) (y : ℝ)
    (hy : y ∈ l) (hypos : 0 < y) : 0 < l.sum := by
  induction l with
  | nil => cases hy
  | cons z zs ih =>
    rw [List.sum_cons]
    rcases List.mem_cons.mp hy with rfl | hy2
    · have h0 : 0 ≤ zs.sum := List.sum_nonneg (fun x hx => hnn x (List.mem_cons_of_mem _ hx))
      linarith
    · have hz : 0 ≤ z := hnn z (List.mem_cons_self z zs)
      have := ih (fun x hx => hnn x (List.mem_cons_of_mem _ hx)) hy2
      linarith

/-- The ddof = 1 sample variance is positive as soon as two list members
differ (and at least two observations exist). -/
lemma sampleVar_pos (xs : List ℝ) (h2 : 2 ≤ xs.length) (a b : ℝ)
    (ha : a ∈ xs) (hb : b ∈ xs) (hab : a ≠ b) : 0 < sampleVar xs := by
  have hlen : (2 : ℝ) ≤ (xs.length : ℝ) := by exact_mod_cast h2
  have key : ∃ y ∈ xs, y ≠ listMean xs := by
    rcases eq_or_ne a (listMean xs) with h | h
    · exact ⟨b, hb, fun hbm => hab (h.trans hbm.symm)⟩
    · exact ⟨a, ha, h⟩
  rcases key with ⟨y, hmem, hne⟩
  apply div_pos
  · apply list_sum_pos_mem _ ?_ ((y - listMean xs) ^ 2) ?_ ?_
    · intro x hx
      rcases List.mem_map.mp hx with ⟨z, _, rfl⟩
      positivity
    · exact List.mem_map.mpr ⟨y, hmem, rfl⟩
    · have : y - listMean xs ≠ 0 := sub_ne_zero.mpr hne
      positivity
  · linarith

/-- On a nonempty series, calculate_signal is signal_core applied to the
per-horizon trend values, the last close and the volatility. -/
lemma calculate_signal_eq_core (closes : List ℚ) (h : closes ≠ []) :
    calculate_signal closes
      = signal_core (EMA_DAYS.map (fun hh => QFloat.val (emaValue closes hh)))
          (QFloat.val (closes.getLastD 0)) (calculate_volatility closes) := by
  unfold calculate_signal
  rw [if_neg h]

/-- The buy_signal field of signal_core, unfolded. -/
lemma buyOf_core (re : List QFloat) (rl : QFloat) (v : RFloat) :
    (signal_core re rl v).buyOf
      = ((calculate_zone_score ((re.map safe_float_conversion).map
            (fun e => calculate_percentage_diff (safe_float_conversion rl) (QFloat.val e)))).1 ≥ 75
        ∧ RFloat.le v (VOLATILITY_THRESHOLD : ℝ)
        ∧ safe_float_conversion rl < pymin (re.map safe_float_conversion)) := rfl

/-- The zone_score field of signal_core, unfolded. -/
lemma zoneScoreOf_core (re : List QFloat) (rl : QFloat) (v : RFloat) :
    (signal_core re rl v).zoneScoreOf
      = (calculate_zone_score ((re.map safe_float_conversion).map
            (fun e => calculate_percentage_diff (safe_float_conversion rl) (QFloat.val e)))).1 := rfl

/-- The volatility field of signal_core is the volatility it was given. -/
lemma volOf_core (re : List QFloat) (rl : QFloat) (v : RFloat) :
    (signal_core re rl v).volOf = v := rfl

/-- The ema_values field of signal_core, unfolded. -/
lemma emaValuesOf_core (re : List QFloat) (rl : QFloat) (v : RFloat) :
    (signal_core re rl v).emaValuesOf = re.map safe_float_conversion := rfl

/-- The last_close field of signal_core, unfolded. -/
lemma lastCloseOf_core (re : List QFloat) (rl : QFloat) (v : RFloat) :
    (signal_core re rl v).lastCloseOf = safe_float_conversion rl := rfl

/-- In the above-trend branch (deviation from the 200-day trend equal to 0)
the zone score is at most 30. -/
lemma zone_score_above_le (d0 d1 d2 : ℚ) : (calculate_zone_score [d0, d1, d2, 0]).1 ≤ 30 := by
  simp only [calculate_zone_score, List.getD_cons_zero, List.getD_cons_succ]
  rw [if_neg (lt_irrefl (0 : ℚ))]
  split_ifs <;> norm_num

end EtfAlert

namespace EtfAlert

/-- C1: the end-to-end Policy A scenario fails on the code. For the series
[21, 20.5, 20, 19.5, 19], trending down with every trend value equal to 20
and the latest close 19 exactly 5% below all of them, calculate_signal
returns zone score 60 with the Good label, and no buy signal, instead of
the claimed score 100, Goated label and buy_signal True. -/
theorem claim_C1_scenario1_bug :
    (calculate_signal [21, 20.5, 20, 19.5, 19]).zoneScoreOf = 60
  ∧ (calculate_signal [21, 20.5, 20, 19.5, 19]).zoneClassOf = "➖ Good Price (Below 20 EMA)"
  ∧ ¬ (calculate_signal [21, 20.5, 20, 19.5, 19]).buyOf := by
  refine ⟨?_, ?_, ?_⟩ <;>
    norm_num [calculate_signal, signal_core, EMA_DAYS, emaValue, smaLast, safe_float_conversion,
      calculate_percentage_diff, calculate_zone_score, SignalResult.zoneScoreOf,
      SignalResult.zoneClassOf, SignalResult.buyOf, List.getLastD, List.cons_ne_nil]

/-- C2: the claimed below-trend tiering fails on the code. For deviations
[+1, +1, -1, +1], the price is below the 100-day trend only, which the
claim scores 90; the code lands in the above-trend branch and returns
(10, Expensive). -/
theorem claim_C2_tiering_bug :
    calculate_zone_score [1, 1, -1, 1] = (10, "⛔ Expensive (Above 50 EMA)")
  ∧ (calculate_zone_score [1, 1, -1, 1]).1 ≠ 90 := by
  constructor <;> decide

/-- C3: the tie-break expectation fails on the code. For deviations
[+1, +1, -1, -1] (below the 100-day and 200-day trends, above the others)
the code returns (90, Excellent), not the claimed 200-day-dominant
(100, Goated). -/
theorem claim_C3_tiebreak_bug :
    calculate_zone_score [1, 1, -1, -1] = (90, "⭐ Excellent Price (Below 100 EMA)")
  ∧ (calculate_zone_score [1, 1, -1, -1]).1 ≠ 100 := by
  constructor <;> decide

/-- C4: on every nonempty series the buy flag holds exactly when the zone
score is at least 75, the volatility is at most the 2.5 threshold (false
for NaN volatility), and the latest close is strictly below every computed
trend value; the min comparison of the code is equivalent to the
below-every-EMA condition. -/
theorem claim_C4_buy_conditions (closes : List ℚ) (h : closes ≠ []) :
    (calculate_signal closes).buyOf ↔
      ((calculate_signal closes).zoneScoreOf ≥ 75
        ∧ RFloat.le (calculate_signal closes).volOf (VOLATILITY_THRESHOLD : ℝ)
        ∧ ∀ e ∈ (calculate_signal closes).emaValuesOf,
            (calculate_signal closes).lastCloseOf < e) := by
  rw [calculate_signal_eq_core closes h, buyOf_core, zoneScoreOf_core, volOf_core,
    emaValuesOf_core, lastCloseOf_core]
  have hne : (EMA_DAYS.map (fun hh => QFloat.val (emaValue closes hh))).map safe_float_conversion
      ≠ [] := by simp [EMA_DAYS]
  exact and_congr_right fun _ => and_congr_right fun _ => lt_pymin_iff _ _ hne

/-- C4 witness: the equivalence instantiated at the concrete series [1, 2]. -/
theorem claim_C4_buy_conditions_witness :
    (calculate_signal [1, 2]).buyOf ↔
      ((calculate_signal [1, 2]).zoneScoreOf ≥ 75
        ∧ RFloat.le (calculate_signal [1, 2]).volOf (VOLATILITY_THRESHOLD : ℝ)
        ∧ ∀ e ∈ (calculate_signal [1, 2]).emaValuesOf,
            (calculate_signal [1, 2]).lastCloseOf < e) :=
  claim_C4_buy_conditions [1, 2] (by simp)

/-- C5 counterexample: the volatility field is NaN for the two-point series
[1, 2] - the single log return has no ddof = 1 standard deviation - so a
NaN does leak out of calculate_signal, contrary to the claim. -/
theorem claim_C5_nan_counterexample :
    (calculate_signal [1, 2]).volOf = RFloat.nan := rfl

/-- C5 amended: latest close, EMA values, deviations and zone score are
safe-converted and finite, but the volatility field is returned unguarded,
and on a nonempty positive series it is NaN exactly when the series has
length 2. -/
theorem claim_C5_amended_nan_volatility (closes : List ℚ) (h : closes ≠ [])
    (_hpos : ∀ c ∈ closes, 0 < c) :
    ((calculate_signal closes).volOf = RFloat.nan ↔ closes.length = 2) := by
  rw [calculate_signal_eq_core closes h, volOf_core]
  have hlen1 : 1 ≤ closes.length := List.length_pos.mpr h
  unfold calculate_volatility
  rcases Nat.lt_or_ge closes.length 2 with h2 | h2
  · rw [if_pos h2]
    constructor
    · intro hfalse
      exact absurd hfalse (by simp)
    · omega
  · rw [if_neg (by omega)]
    have hw := length_volWindow closes
    rw [if_neg (by omega)]
    have hr := length_logReturns (volWindow closes)
    by_cases h3 : (logReturns (volWindow closes)).length < 2
    · rw [if_pos h3]
      simp only [true_iff]
      omega
    · rw [if_neg h3]
      constructor
      · intro hfalse
        exact absurd hfalse (by simp)
      · omega

/-- C5 amended witness: the equivalence at the three-point series [1, 2, 4],
whose volatility is not NaN. -/
theorem claim_C5_amended_nan_volatility_witness :
    ((calculate_signal [1, 2, 4]).volOf = RFloat.nan ↔ ([1, 2, 4] : List ℚ).length = 2) :=
  claim_C5_amended_nan_volatility [1, 2, 4] (by simp) (by decide)

end EtfAlert

namespace EtfAlert

/-- C6 counterexample: the series [1, 2, 4] has at least two distinct
closes, yet its volatility is exactly 0, not strictly positive: both log
returns equal log 2, so their standard deviation vanishes. -/
theorem claim_C6_zero_counterexample :
    ((1 : ℚ) ∈ ([1, 2, 4] : List ℚ) ∧ (2 : ℚ) ∈ ([1, 2, 4] : List ℚ) ∧ (1 : ℚ) ≠ 2)
  ∧ calculate_volatility [1, 2, 4] = RFloat.val 0 := by
  refine ⟨by decide, ?_⟩
  have hwind : volWindow [1, 2, 4] = [1, 2, 4] := rfl
  have hlr : logReturns (volWindow [1, 2, 4])
      = [Real.log (((2 : ℚ) : ℝ) / ((1 : ℚ) : ℝ)), Real.log (((4 : ℚ) : ℝ) / ((2 : ℚ) : ℝ))] := rfl
  unfold calculate_volatility
  rw [if_neg (by norm_num), if_neg (by rw [hwind]; norm_num), if_neg (by rw [hlr]; norm_num)]
  have hcast1 : ((2 : ℚ) : ℝ) / ((1 : ℚ) : ℝ) = 2 := by norm_num
  have hcast2 : ((4 : ℚ) : ℝ) / ((2 : ℚ) : ℝ) = 2 := by norm_num
  have hvar : sampleVar (logReturns (volWindow [1, 2, 4])) = 0 := by
    rw [hlr, hcast1, hcast2]
    simp only [sampleVar, listMean, List.map_cons, List.map_nil, List.sum_cons, List.sum_nil,
      List.length_cons, List.length_nil]
    push_cast
    ring_nf
  rw [hvar, Real.sqrt_zero, zero_mul, zero_mul]

/-- C6 amended: calculate_volatility returns 0.0 for any series of length
below 2; for a series of length at least 3 it returns the ddof = 1 standard
deviation of the log returns over the trailing 63-observation window,
scaled by sqrt(252) and expressed in percent, and that value is strictly
positive whenever two log returns of the window differ. (Two distinct
closes are not sufficient, and a length-2 series yields NaN instead.) -/
theorem claim_C6_amended_volatility (closes : List ℚ) (_hpos : ∀ c ∈ closes, 0 < c) :
    (closes.length < 2 → calculate_volatility closes = RFloat.val 0)
  ∧ (2 < closes.length →
      calculate_volatility closes
        = RFloat.val (Real.sqrt (sampleVar (logReturns (volWindow closes))) * Real.sqrt 252 * 100)
      ∧ (∀ a ∈ logReturns (volWindow closes), ∀ b ∈ logReturns (volWindow closes), a ≠ b →
          0 < Real.sqrt (sampleVar (logReturns (volWindow closes))) * Real.sqrt 252 * 100)) := by
  constructor
  · intro hlt
    unfold calculate_volatility
    rw [if_pos hlt]
  · intro h3
    have hw := length_volWindow closes
    have hr := length_logReturns (volWindow closes)
    constructor
    · unfold calculate_volatility
      rw [if_neg (by omega), if_neg (by omega), if_neg (by omega)]
    · intro a ha b hb hab
      have h2 : 2 ≤ (logReturns (volWindow closes)).length := by omega
      have hvar := sampleVar_pos _ h2 a b ha hb hab
      have h252 : (0 : ℝ) < Real.sqrt 252 := Real.sqrt_pos.mpr (by norm_num)
      exact mul_pos (mul_pos (Real.sqrt_pos.mpr hvar) h252) (by norm_num)

/-- C6 amended witness: the series [1, 2, 1] has log returns log 2 and
log (1/2), which differ, so its annualized volatility is strictly positive. -/
theorem claim_C6_amended_volatility_witness :
    0 < Real.sqrt (sampleVar (logReturns (volWindow [1, 2, 1]))) * Real.sqrt 252 * 100 := by
  have hlr : logReturns (volWindow [1, 2, 1])
      = [Real.log (((2 : ℚ) : ℝ) / ((1 : ℚ) : ℝ)), Real.log (((1 : ℚ) : ℝ) / ((2 : ℚ) : ℝ))] := rfl
  have h := (claim_C6_amended_volatility [1, 2, 1] (by decide)).2 (by norm_num)
  refine h.2 (Real.log (((2 : ℚ) : ℝ) / ((1 : ℚ) : ℝ))) ?_
    (Real.log (((1 : ℚ) : ℝ) / ((2 : ℚ) : ℝ))) ?_ ?_
  · rw [hlr]
    exact List.mem_cons_self _ _
  · rw [hlr]
    exact List.mem_cons_of_mem _ (List.mem_cons_self _ _)
  · have e1 : ((2 : ℚ) : ℝ) / ((1 : ℚ) : ℝ) = 2 := by norm_num
    have e2 : ((1 : ℚ) : ℝ) / ((2 : ℚ) : ℝ) = 1 / 2 := by norm_num
    rw [e1, e2]
    have hp : 0 < Real.log 2 := Real.log_pos (by norm_num)
    have hn : Real.log (1 / 2) < 0 := Real.log_neg (by norm_num) (by norm_num)
    exact ne_of_gt (by linarith)

/-- C7: calculate_percentage_diff returns ((C - ema) / ema) * 100 for a
finite nonzero trend value and exactly 0.0 when the trend value is zero,
NaN or infinite; the function is total, so it never raises. -/
theorem claim_C7_percentage_diff (current : ℚ) (q : ℚ) (hq : q ≠ 0) :
    calculate_percentage_diff current (QFloat.val q) = ((current - q) / q) * 100
  ∧ calculate_percentage_diff current (QFloat.val 0) = 0
  ∧ calculate_percentage_diff current QFloat.nan = 0
  ∧ calculate_percentage_diff current QFloat.inf = 0
  ∧ calculate_percentage_diff current QFloat.ninf = 0 := by
  refine ⟨?_, ?_, rfl, rfl, rfl⟩
  · simp [calculate_percentage_diff, hq]
  · simp [calculate_percentage_diff]

/-- C7 witness: the contract instantiated at latest close 3 and trend value 2. -/
theorem claim_C7_percentage_diff_witness :
    calculate_percentage_diff 3 (QFloat.val 2) = (((3 : ℚ) - 2) / 2) * 100
  ∧ calculate_percentage_diff 3 (QFloat.val 0) = 0
  ∧ calculate_percentage_diff 3 QFloat.nan = 0
  ∧ calculate_percentage_diff 3 QFloat.inf = 0
  ∧ calculate_percentage_diff 3 QFloat.ninf = 0 :=
  claim_C7_percentage_diff 3 2 (by norm_num)

/-- C8: on an empty series calculate_signal does not raise past its
boundary: it returns the bare error record, which carries only the error
message and in particular no zone score and no trend values. -/
theorem claim_C8_empty_series :
    calculate_signal ([] : List ℚ) = SignalResult.err ("Empty DataFrame received") := rfl

end EtfAlert

namespace EtfAlert

/-- C9: on a nonempty series the trend estimator for horizon h degrades
gracefully: with fewer than h observations it returns the simple average of
all available closes when at least 5 points exist and the last close itself
otherwise, and with at least h observations it returns the recursive EMA
with smoothing factor 2 / (h + 1), seeded by the first close and folded
forward through the rest of the series. -/
theorem claim_C9_trend_fallback (closes : List ℚ) (h : ℕ) (hne : closes ≠ []) :
    (closes.length < h → 5 ≤ closes.length →
        emaValue closes h = closes.sum / (closes.length : ℚ))
  ∧ (closes.length < h → closes.length < 5 → emaValue closes h = closes.getLastD 0)
  ∧ (h ≤ closes.length →
      emaValue closes h
        = closes.tail.foldl (fun acc x => acc + ewmAlpha h * (x - acc)) (closes.headD 0)) := by
  refine ⟨?_, ?_, ?_⟩
  · intro hlt h5
    unfold emaValue
    rw [if_neg (by omega), if_pos h5]
    have h0 : closes.length - h = 0 := by omega
    simp only [smaLast, h0, List.drop_zero]
  · intro hlt h5
    unfold emaValue
    rw [if_neg (by omega), if_neg (by omega)]
  · intro hle
    unfold emaValue
    rw [if_pos hle]
    obtain ⟨c, cs, rfl⟩ := List.exists_cons_of_ne_nil hne
    have hfun : (fun acc x => (1 - ewmAlpha h) * acc + ewmAlpha h * x)
        = (fun acc x : ℚ => acc + ewmAlpha h * (x - acc)) := by
      funext acc x
      ring
    simp only [ewmLast, List.tail_cons, List.headD_cons, hfun]

/-- C9 witness: on the three-point series [1, 2, 3] with horizon 20 the
estimator falls back to the last close, 3. -/
theorem claim_C9_trend_fallback_witness : emaValue [1, 2, 3] 20 = 3 := by
  have h := (claim_C9_trend_fallback [1, 2, 3] 20 (by simp)).2.1 (by norm_num) (by norm_num)
  simpa using h

/-- C10: in the signal body, when any of the four raw trend values is
degenerate (collapsed to 0.0 by safe_float_conversion) and the last close
is positive, the buy flag is off, because the positive close cannot be
strictly below the minimum of the converted trend values; and when the
200-day trend value is the degenerate one, its deviation is 0.0 and the
classification lands in the above-trend branch, with score at most 30. -/
theorem claim_C10_degenerate_ema (a b d e : QFloat) (c : ℚ) (v : RFloat) (hc : 0 < c) :
    ((safe_float_conversion a = 0 ∨ safe_float_conversion b = 0
        ∨ safe_float_conversion d = 0 ∨ safe_float_conversion e = 0) →
      ¬ (signal_core [a, b, d, e] (QFloat.val c) v).buyOf)
  ∧ (safe_float_conversion e = 0 →
      (signal_core [a, b, d, e] (QFloat.val c) v).zoneScoreOf ≤ 30) := by
  constructor
  · intro hdeg hb
    rw [buyOf_core] at hb
    have hlt : c < pymin ([a, b, d, e].map safe_float_conversion) := hb.2.2
    have hall := (lt_pymin_iff c _ (by simp)).mp hlt
    have hmem : (0 : ℚ) ∈ [a, b, d, e].map safe_float_conversion := by
      rcases hdeg with h0 | h0 | h0 | h0 <;>
        simp only [List.map_cons, List.map_nil, h0] <;> simp
    have := hall 0 hmem
    exact absurd this (by linarith)
  · intro he
    rw [zoneScoreOf_core]
    simp only [List.map_cons, List.map_nil, he]
    have hz : calculate_percentage_diff (safe_float_conversion (QFloat.val c)) (QFloat.val 0)
        = 0 := by simp [calculate_percentage_diff]
    rw [hz]
    exact zone_score_above_le _ _ _

/-- C10 witness: a NaN 200-day trend value with last close 1 yields no buy
flag and an above-trend zone score. -/
theorem claim_C10_degenerate_ema_witness :
    ¬ (signal_core [QFloat.val 1, QFloat.val 1, QFloat.val 1, QFloat.nan]
        (QFloat.val 1) (RFloat.val 0)).buyOf
  ∧ (signal_core [QFloat.val 1, QFloat.val 1, QFloat.val 1, QFloat.nan]
        (QFloat.val 1) (RFloat.val 0)).zoneScoreOf ≤ 30 :=
  ⟨(claim_C10_degenerate_ema (QFloat.val 1) (QFloat.val 1) (QFloat.val 1) QFloat.nan 1
      (RFloat.val 0) (by norm_num)).1 (Or.inr (Or.inr (Or.inr rfl))),
   (claim_C10_degenerate_ema (QFloat.val 1) (QFloat.val 1) (QFloat.val 1) QFloat.nan 1
      (RFloat.val 0) (by norm_num)).2 rfl⟩

end EtfAlert
